import Mathlib

/-!
Shallow embedding of the `books` app of the library_api repository
(`src/books/models.py`, `src/books/serializers.py`, `src/books/views.py`)
and proofs about it.

Modelling conventions:
* the relational store is a pair of lists (`List Author`, `List Book`)
  whose list order is the table's underlying row order;
* Django querysets become list transformations; `order_by` becomes the
  stable `List.insertionSort` with the corresponding non-strict relation,
  reflecting that SQL `ORDER BY` constrains only the sort keys and leaves
  ties in the store's underlying order;
* dates are modelled as integers (days); SQL `NULL`-able aggregates become
  `Option`; Python's `x or 0` becomes an explicit truthiness match;
* Python's `round` (banker's rounding) is modelled on `ℚ`;
* `asyncio.gather` over fallible sub-queries becomes a fan-in over
  `Except` values that propagates any failure.
-/

/-- `books.models.Author` (the fields the views and serializers read). -/
structure Author where
  id : Nat
  first_name : String
  last_name : String
  nationality : String
deriving DecidableEq, Repr

/-- `books.models.Book`; `authors` holds the ids of the related authors
(the many-to-many join rows), `publication_date` is a day number,
`pages` is nullable (`null=True` in the model). -/
structure Book where
  id : Nat
  title : String
  isbn : String
  publication_date : Int
  publisher : String
  pages : Option Nat
  language : String
  description : String
  authors : List Nat
deriving DecidableEq, Repr

/-- `Book.isbn` is declared `models.CharField(max_length=13, ...)`
(models.py line 71). -/
def Book.isbn_max_length : Nat := 13

/-- `value.replace('-', '').replace(' ', '')` from
`BookWriteSerializer.validate_isbn`: every hyphen and space is removed. -/
def stripIsbn (s : String) : String :=
  ⟨s.data.filter (fun c => !(c == '-' || c == ' '))⟩

/-- Python's `str.isdigit` restricted to the ASCII strings the spec talks
about: true iff the string is non-empty and every character is a decimal
digit (Python's `''.isdigit()` is `False`). -/
def pyIsDigit (s : String) : Bool :=
  !s.data.isEmpty && s.data.all Char.isDigit

/-- A DRF `ValidationError` keyed to a field. -/
inductive DrfError where
  | field (name : String) (message : String)
deriving DecidableEq, Repr

instance {ε α : Type} [DecidableEq ε] [DecidableEq α] : DecidableEq (Except ε α) := fun x y =>
  match x, y with
  | .ok a, .ok b => if h : a = b then isTrue (by rw [h]) else isFalse (by simp [h])
  | .error e, .error f => if h : e = f then isTrue (by rw [h]) else isFalse (by simp [h])
  | .ok _, .error _ => isFalse (by simp)
  | .error _, .ok _ => isFalse (by simp)

/-- The deserialized write payload (`attrs`) seen by
`BookWriteSerializer.validate`; `authors` is `none` when the key is absent
from the payload. -/
structure BookAttrs where
  title : String
  isbn : String
  publication_date : Int
  publisher : String
  pages : Option Nat
  language : String
  description : String
  authors : Option (List Nat)
deriving DecidableEq, Repr

namespace BookWriteSerializer

/-- `BookWriteSerializer.validate_isbn` (serializers.py lines 112-118):
strip hyphens/spaces, reject unless the stripped form is all digits of
length 10 or 13; on success return `value` — the raw submitted string,
not the stripped one. -/
def validate_isbn (value : String) : Except String String :=
  let isbn := stripIsbn value
  if !pyIsDigit isbn then
    .error "ISBN must contain only digits (hyphens and spaces are allowed)."
  else if !(isbn.length == 10 || isbn.length == 13) then
    .error "ISBN must be either 10 or 13 digits long."
  else
    .ok value

/-- `BookWriteSerializer.validate` (serializers.py lines 120-125):
`attrs.get('authors', [])`; raise `{"authors": ...}` when the list is
empty or the key absent, otherwise return `attrs` unchanged. -/
def validate (attrs : BookAttrs) : Except DrfError BookAttrs :=
  let authors := attrs.authors.getD []
  if authors.isEmpty then
    .error (.field "authors" "A book must have at least one author.")
  else
    .ok attrs

end BookWriteSerializer

/-- The field validation DRF derives for `isbn` from the model:
`BookWriteSerializer` is a `ModelSerializer` over `Book`, so the
`max_length=13` of models.py line 71 becomes a `MaxLengthValidator` on
the serializer's `isbn` field, applied by `Field.run_validation` before
the serializer's own `validate_isbn` method is called. -/
def run_isbn_field_validators (value : String) : Except String String :=
  if Book.isbn_max_length < value.length then
    .error "Ensure this field has no more than 13 characters."
  else
    .ok value

/-- The create path for a book: the model-derived field validation runs
first, then the `validate_isbn` method (both with errors keyed to
`isbn`), then the object-level `validate`; only when all pass is a new
row appended to the table. -/
def createBook (books : List Book) (nid : Nat) (attrs : BookAttrs) :
    Except DrfError (List Book) :=
  match run_isbn_field_validators attrs.isbn with
  | .error msg => .error (.field "isbn" msg)
  | .ok fieldVal =>
    match BookWriteSerializer.validate_isbn fieldVal with
    | .error msg => .error (.field "isbn" msg)
    | .ok isbnVal =>
      match BookWriteSerializer.validate { attrs with isbn := isbnVal } with
      | .error e => .error e
      | .ok v =>
        .ok (books ++ [{ id := nid, title := v.title, isbn := v.isbn,
                         publication_date := v.publication_date,
                         publisher := v.publisher, pages := v.pages,
                         language := v.language, description := v.description,
                         authors := v.authors.getD [] }])

/-! ### Aggregation helpers -/

/-- Python truthiness `x or 0` applied to a nullable count (`None or 0`
is `0`, a zero value is falsy and also yields `0`). -/
def pyOrZeroNat (o : Option Nat) : Nat :=
  match o with
  | none => 0
  | some v => if v = 0 then 0 else v

/-- Python truthiness `x or 0` applied to a nullable average. -/
def pyOrZeroQ (o : Option ℚ) : ℚ :=
  match o with
  | none => 0
  | some v => if v = 0 then 0 else v

/-- Floor of a rational, computed with floored integer division. -/
def ratFloor (q : ℚ) : ℤ := Int.fdiv q.num (q.den : ℤ)

/-- Round to the nearest integer, ties to the even integer — the rounding
Python's built-in `round` uses. -/
def roundHalfEven (q : ℚ) : ℤ :=
  let fl := ratFloor q
  let fr := q - (fl : ℚ)
  if fr < 1/2 then fl
  else if 1/2 < fr then fl + 1
  else if fl % 2 = 0 then fl else fl + 1

/-- Python `round(q, 2)`. -/
def pyRound2 (q : ℚ) : ℚ := (roundHalfEven (q * 100) : ℚ) / 100

/-- Python `round(q, 0)`. -/
def pyRound0 (q : ℚ) : ℚ := (roundHalfEven q : ℚ)

/-- SQL `AVG` over a list of integer values: `NULL` on the empty set,
otherwise the exact rational mean. -/
def listAvg (l : List Nat) : Option ℚ :=
  if l.isEmpty then none else some ((l.sum : ℚ) / (l.length : ℚ))

/-! ### Author statistics (`AuthorViewSet.statistics`, views.py 52-101) -/

/-- `Count('books')` on an author: the number of books whose join rows
contain this author's id. -/
def bookCount (books : List Book) (a : Author) : Nat :=
  (books.filter (fun b => b.authors.contains a.id)).length

/-- The ordering `order_by('-book_count')` asks the store for:
descending annotated book count, nothing more. -/
def byBookCountDesc (books : List Book) (a b : Author) : Prop :=
  bookCount books b ≤ bookCount books a

instance (books : List Book) : DecidableRel (byBookCountDesc books) :=
  fun a b => inferInstanceAs (Decidable (bookCount books b ≤ bookCount books a))

instance (books : List Book) : IsTotal Author (byBookCountDesc books) :=
  ⟨fun a b => (Nat.le_total (bookCount books a) (bookCount books b)).symm⟩

instance (books : List Book) : IsTrans Author (byBookCountDesc books) :=
  ⟨fun _ _ _ h1 h2 => Nat.le_trans h2 h1⟩

/-- The `Author.Meta.ordering = ['last_name', 'first_name']` default
ordering (models.py line 47). -/
def byNameLE (a b : Author) : Prop :=
  a.last_name < b.last_name ∨ (a.last_name = b.last_name ∧ a.first_name ≤ b.first_name)

instance : DecidableRel byNameLE := fun a b =>
  inferInstanceAs (Decidable (a.last_name < b.last_name ∨
    (a.last_name = b.last_name ∧ a.first_name ≤ b.first_name)))

/-- `Author.objects.annotate(book_count=Count('books')).order_by('-book_count')`:
the sort keeps ties in the table's underlying row order (the explicit
`order_by` replaces the model's default name ordering). -/
def authors_with_book_count (authors : List Author) (books : List Book) : List Author :=
  List.insertionSort (byBookCountDesc books) authors

/-- `Author.objects.annotate(book_count=Count('books')).filter(book_count=0)`:
no explicit `order_by`, so the model's default name ordering applies. -/
def authors_without_books (authors : List Author) (books : List Book) : List Author :=
  List.insertionSort byNameLE (authors.filter (fun a => bookCount books a == 0))

/-- The `aaggregate(...)` sub-query of the author statistics: total author
count and average/max/min of the annotated book counts (`NULL` when there
are no rows). -/
structure AuthorAggRaw where
  total_authors : Nat
  avg_books_per_author : Option ℚ
  max_books : Option Nat
  min_books : Option Nat
deriving DecidableEq, Repr

def authorAggQuery (authors : List Author) (books : List Book) : AuthorAggRaw :=
  let counts := authors.map (bookCount books)
  { total_authors := authors.length
    avg_books_per_author := listAvg counts
    max_books := counts.max?
    min_books := counts.min? }

/-- The `aggregated_statistics` section of the response payload
(views.py 74-79), after the `or 0` defaulting and rounding. -/
structure AuthorAggStats where
  total_authors : Nat
  average_books_per_author : ℚ
  max_books_by_single_author : Nat
  min_books_by_single_author : Nat
deriving DecidableEq, Repr

/-- The whole author statistics response payload (views.py 73-101):
`top_authors` is the first 5 rows of the count-ordered queryset,
`authors_without_books` lists the first 10 zero-book authors next to the
full zero-book count. -/
structure AuthorStatsResponse where
  aggregated_statistics : AuthorAggStats
  authors_without_books_count : Nat
  authors_without_books_list : List Author
  top_authors : List Author
deriving DecidableEq, Repr

/-- Assembly of the author statistics response from the four resolved
sub-query results (views.py 73-101). -/
def assembleAuthorStats (agg : AuthorAggRaw) (top : List Author)
    (wbList : List Author) (wbCount : Nat) : AuthorStatsResponse :=
  { aggregated_statistics :=
      { total_authors := agg.total_authors
        average_books_per_author := pyRound2 (pyOrZeroQ agg.avg_books_per_author)
        max_books_by_single_author := pyOrZeroNat agg.max_books
        min_books_by_single_author := pyOrZeroNat agg.min_books }
    authors_without_books_count := wbCount
    authors_without_books_list := wbList
    top_authors := top }

/-- `AuthorViewSet.statistics` on a store state in which every sub-query
succeeds. -/
def authorStatistics (authors : List Author) (books : List Book) : AuthorStatsResponse :=
  assembleAuthorStats (authorAggQuery authors books)
    ((authors_with_book_count authors books).take 5)
    ((authors_without_books authors books).take 10)
    (authors_without_books authors books).length

/-! ### Book statistics (`BookViewSet.statistics`, views.py 143-195) -/

/-- `Count('authors')` on a book: the number of join rows of the book. -/
def authorCount (b : Book) : Nat := b.authors.length

/-- The ordering `order_by('-author_count')` of the annotated book
queryset. -/
def byAuthorCountDesc (a b : Book) : Prop := authorCount b ≤ authorCount a

instance : DecidableRel byAuthorCountDesc :=
  fun a b => inferInstanceAs (Decidable (authorCount b ≤ authorCount a))

instance : IsTotal Book byAuthorCountDesc :=
  ⟨fun a b => (Nat.le_total (authorCount a) (authorCount b)).symm⟩

instance : IsTrans Book byAuthorCountDesc :=
  ⟨fun _ _ _ h1 h2 => Nat.le_trans h2 h1⟩

/-- `Book.objects.annotate(author_count=Count('authors')).order_by('-author_count')`. -/
def books_with_author_count (books : List Book) : List Book :=
  List.insertionSort byAuthorCountDesc books

/-- `books_with_author_count.filter(author_count__gt=1)`. -/
def collaborative_books (books : List Book) : List Book :=
  (books_with_author_count books).filter (fun b => 1 < authorCount b)

/-- `Book.objects.values('language').annotate(count=Count('id')).order_by('-count')`:
one row per distinct language with its book count, sorted by descending
count (ties in the grouping's underlying order). -/
def books_by_language (books : List Book) : List (String × Nat) :=
  List.insertionSort (fun p q : String × Nat => q.2 ≤ p.2)
    (((books.map (fun b => b.language)).dedup).map
      (fun l => (l, (books.filter (fun b => b.language == l)).length)))

/-- The `books_with_author_count.aaggregate(avg_authors_per_book=...)`
sub-query result. -/
structure BookAvgRaw where
  avg_authors_per_book : Option ℚ
deriving DecidableEq, Repr

def bookAvgQuery (books : List Book) : BookAvgRaw :=
  { avg_authors_per_book := listAvg (books.map authorCount) }

/-- The `Book.objects.aaggregate(...)` sub-query result: `Avg`, `Max`,
`Min` over `pages` skip `NULL` pages and are `NULL` on an empty set;
the publication-date extremes are `NULL` only when there are no books. -/
structure BookAggRaw where
  total_books : Nat
  avg_pages : Option ℚ
  max_pages : Option Nat
  min_pages : Option Nat
  latest_publication : Option Int
  earliest_publication : Option Int
deriving DecidableEq, Repr

def bookAggQuery (books : List Book) : BookAggRaw :=
  let pagesVals := books.filterMap (fun b => b.pages)
  let dates := books.map (fun b => b.publication_date)
  { total_books := books.length
    avg_pages := listAvg pagesVals
    max_pages := pagesVals.max?
    min_pages := pagesVals.min?
    latest_publication := dates.max?
    earliest_publication := dates.min? }

/-- The `aggregated_statistics` section of the book statistics payload
(views.py 172-180): every aggregate but the publication dates is
defaulted with `or 0`; `latest_publication` and `earliest_publication`
are passed through as-is (so they stay `NULL` on an empty store). -/
structure BookAggStats where
  total_books : Nat
  average_authors_per_book : ℚ
  average_pages : ℚ
  max_pages : Nat
  min_pages : Nat
  latest_publication : Option Int
  earliest_publication : Option Int
deriving DecidableEq, Repr

/-- The whole book statistics response payload (views.py 171-195). -/
structure BookStatsResponse where
  aggregated_statistics : BookAggStats
  collaborative_books_count : Nat
  collaborative_books_list : List Book
  books_by_language : List (String × Nat)
deriving DecidableEq, Repr

/-- Assembly of the book statistics response from the five resolved
sub-query results. -/
def assembleBookStats (bs : BookAvgRaw) (agg : BookAggRaw)
    (langs : List (String × Nat)) (collabList : List Book) (collabCount : Nat) :
    BookStatsResponse :=
  { aggregated_statistics :=
      { total_books := agg.total_books
        average_authors_per_book := pyRound2 (pyOrZeroQ bs.avg_authors_per_book)
        average_pages := pyRound0 (pyOrZeroQ agg.avg_pages)
        max_pages := pyOrZeroNat agg.max_pages
        min_pages := pyOrZeroNat agg.min_pages
        latest_publication := agg.latest_publication
        earliest_publication := agg.earliest_publication }
    collaborative_books_count := collabCount
    collaborative_books_list := collabList
    books_by_language := langs }

/-- `BookViewSet.statistics` on a store state in which every sub-query
succeeds. -/
def bookStatistics (books : List Book) : BookStatsResponse :=
  assembleBookStats (bookAvgQuery books) (bookAggQuery books)
    (books_by_language books)
    ((collaborative_books books).take 10)
    (collaborative_books books).length

/-! ### Recent books (`BookViewSet.recent`, views.py 202-217) -/

/-- `order_by('-publication_date')`. -/
def byDateDesc (a b : Book) : Prop := b.publication_date ≤ a.publication_date

instance : DecidableRel byDateDesc :=
  fun a b => inferInstanceAs (Decidable (b.publication_date ≤ a.publication_date))

instance : IsTotal Book byDateDesc :=
  ⟨fun a b => (Int.le_total a.publication_date b.publication_date).symm⟩

instance : IsTrans Book byDateDesc :=
  ⟨fun _ _ _ h1 h2 => Int.le_trans h2 h1⟩

/-- The `{count, books}` payload of the recent endpoint; each entry of
`books` carries the book together with its annotated `author_count`. -/
structure RecentResponse where
  count : Nat
  books : List (Book × Nat)
deriving DecidableEq, Repr

/-- `BookViewSet.recent`: keep the books published on or after
`today - 5*365` days, annotate each with its author count, order by
descending publication date (ties in the table's underlying order),
and return `{count, books}`. -/
def recent (books : List Book) (today : Int) : RecentResponse :=
  let five_years_ago := today - 5 * 365
  let recent_books := List.insertionSort byDateDesc
    (books.filter (fun b => five_years_ago ≤ b.publication_date))
  { count := recent_books.length
    books := recent_books.map (fun b => (b, authorCount b)) }

/-! ### The `asyncio.gather` fan-in (views.py 61-71 and 154-169)

Each statistics handler awaits all its sub-queries with a bare
`asyncio.gather(...)` (`return_exceptions` left at `False`), so a failed
sub-query propagates out of the `await` and the response is assembled
only from a fully successful gather. The sub-query outcomes are modelled
as `Except` values delivered by the store. -/

/-- Fan-in of the four author-statistics sub-queries followed by response
assembly: any failure short-circuits, otherwise the payload is built from
all four results. -/
def authorStatisticsEndpoint (q_agg : Except String AuthorAggRaw)
    (q_top : Except String (List Author))
    (q_wb : Except String (List Author))
    (q_wbCount : Except String Nat) : Except String AuthorStatsResponse := do
  let agg ← q_agg
  let top ← q_top
  let wb ← q_wb
  let wbCount ← q_wbCount
  return assembleAuthorStats agg top wb wbCount

/-- Fan-in of the five book-statistics sub-queries followed by response
assembly. -/
def bookStatisticsEndpoint (q_bs : Except String BookAvgRaw)
    (q_agg : Except String BookAggRaw)
    (q_langs : Except String (List (String × Nat)))
    (q_collab : Except String (List Book))
    (q_collabCount : Except String Nat) : Except String BookStatsResponse := do
  let bs ← q_bs
  let agg ← q_agg
  let langs ← q_langs
  let collab ← q_collab
  let collabCount ← q_collabCount
  return assembleBookStats bs agg langs collab collabCount

/-! ### Concrete store states used by the example-level claims -/

/-- Author "A" of the spec's worked example: no books. -/
def exampleAuthorA : Author :=
  { id := 1, first_name := "Ann", last_name := "Adams", nationality := "US" }

/-- Author "B" of the spec's worked example: two books. -/
def exampleAuthorB : Author :=
  { id := 2, first_name := "Bob", last_name := "Brown", nationality := "US" }

/-- Author "C" of the spec's worked example: one book. -/
def exampleAuthorC : Author :=
  { id := 3, first_name := "Cat", last_name := "Clark", nationality := "US" }

/-- A book row with the given id, author ids and publication day. -/
def mkBook (i : Nat) (auth : List Nat) (d : Int) : Book :=
  { id := i, title := "t", isbn := "1234567890", publication_date := d,
    publisher := "", pages := some 100, language := "English",
    description := "", authors := auth }

/-- The book table of the spec's worked example: B wrote two books,
C wrote one, A wrote none. -/
def exampleBooks : List Book := [mkBook 1 [2] 100, mkBook 2 [2] 200, mkBook 3 [3] 300]

/-- An author that sorts late by name, stored first in the table. -/
def rowZeta : Author :=
  { id := 10, first_name := "Zed", last_name := "Zeta", nationality := "" }

/-- An author that sorts early by name, stored second in the table. -/
def rowAlpha : Author :=
  { id := 11, first_name := "Al", last_name := "Alpha", nationality := "" }

/-- A write payload whose `authors` list is present but empty. -/
def emptyAuthorsAttrs : BookAttrs :=
  { title := "T", isbn := "1234567890", publication_date := 0, publisher := "",
    pages := none, language := "English", description := "", authors := some [] }

/-- A write payload carrying a 13-digit ISBN written with hyphens
(17 characters raw) and one author. -/
def hyphenIsbnAttrs : BookAttrs :=
  { title := "T", isbn := "978-0-13-468599-1", publication_date := 0, publisher := "",
    pages := none, language := "English", description := "", authors := some [1] }

/-- A write payload carrying a 10-digit ISBN written with hyphens
(13 characters raw, so it also fits the storage column) and one author. -/
def hyphen13Attrs : BookAttrs :=
  { title := "T", isbn := "0-306-40615-2", publication_date := 0, publisher := "",
    pages := none, language := "English", description := "", authors := some [1] }

/-- The exact mean book count over all authors — `0` when there are no
authors — the quantity the spec's rounding sentence is about. -/
def averageBookCountSpec (authors : List Author) (books : List Book) : ℚ :=
  if authors.isEmpty then 0
  else ((authors.map (bookCount books)).sum : ℚ) / (authors.length : ℚ)

/-! ### Helper lemmas -/

theorem pyOrZeroQ_some (v : ℚ) : pyOrZeroQ (some v) = v := by
  show (if v = 0 then 0 else v) = v
  split
  · next h => exact h.symm
  · rfl

theorem pyRound2_zero : pyRound2 0 = 0 := by with_unfolding_all decide

theorem run_isbn_field_validators_ok {s fv : String}
    (h : run_isbn_field_validators s = .ok fv) :
    fv = s ∧ s.length ≤ Book.isbn_max_length := by
  unfold run_isbn_field_validators at h
  split at h
  · simp at h
  · next hlen =>
    refine ⟨?_, Nat.le_of_not_lt hlen⟩
    simpa using h.symm

theorem validate_isbn_ok_eq {v w : String}
    (h : BookWriteSerializer.validate_isbn v = .ok w) : w = v := by
  simp only [BookWriteSerializer.validate_isbn] at h
  split at h
  · simp at h
  · split at h
    · simp at h
    · simpa using h.symm

theorem validate_ok_eq {attrs r : BookAttrs}
    (h : BookWriteSerializer.validate attrs = .ok r) : r = attrs := by
  simp only [BookWriteSerializer.validate] at h
  split at h
  · simp at h
  · simpa using h.symm

/-! ### Claims -/

/-- C1: for every raw ISBN string, `validate_isbn` accepts exactly when
the form obtained by stripping hyphens and spaces is all digits and has
exactly 10 or 13 characters; in every other case it raises the
`INVALID_ISBN` validation error (modelled as the `Except.error` branch). -/
theorem validate_isbn_accepts_iff (raw : String) :
    (BookWriteSerializer.validate_isbn raw).isOk =
      ((stripIsbn raw).data.all Char.isDigit &&
        ((stripIsbn raw).length == 10 || (stripIsbn raw).length == 13)) := by
  unfold BookWriteSerializer.validate_isbn pyIsDigit
  simp only [String.length]
  rcases hstr : stripIsbn raw with ⟨l⟩
  cases l with
  | nil => rfl
  | cons c cs =>
    by_cases hall : (c :: cs).all Char.isDigit <;>
      by_cases h9 : cs.length = 9 <;>
        by_cases h12 : cs.length = 12 <;>
          simp [hall, h9, h12, Except.isOk, Except.toBool]

/-- C2: the code does not return the normalized ISBN. At the accepted
input `"0-306-40615-2"` the stripped form is `"0306406152"`, yet
`validate_isbn` returns the raw hyphenated string unchanged, and the
create path persists that raw string as the book's `isbn`. -/
theorem validate_isbn_keeps_raw_value :
    BookWriteSerializer.validate_isbn "0-306-40615-2" = .ok "0-306-40615-2" ∧
    stripIsbn "0-306-40615-2" = "0306406152" ∧
    "0-306-40615-2" ≠ "0306406152" ∧
    (createBook [] 1 hyphen13Attrs).map (fun bs => bs.map (fun b => b.isbn)) =
      .ok ["0-306-40615-2"] := by
  refine ⟨by decide, by decide, by decide, by decide⟩

/-- C3: a write payload whose `authors` list is absent or empty fails
object-level validation with the error keyed to `authors`, and the create
path persists nothing (it returns an error whatever the rest of the
payload is); a payload with at least one author passes this check. -/
theorem validate_requires_authors (attrs : BookAttrs) (books : List Book) (nid : Nat) :
    ((attrs.authors.getD []).isEmpty = true →
      BookWriteSerializer.validate attrs =
        .error (.field "authors" "A book must have at least one author.") ∧
      (createBook books nid attrs).isOk = false) ∧
    ((attrs.authors.getD []).isEmpty = false →
      (BookWriteSerializer.validate attrs).isOk = true) := by
  constructor
  · intro h
    have hv : ∀ s, BookWriteSerializer.validate { attrs with isbn := s } =
        .error (.field "authors" "A book must have at least one author.") := by
      intro s
      unfold BookWriteSerializer.validate
      simp [h]
    refine ⟨?_, ?_⟩
    · have := hv attrs.isbn
      simpa using this
    · unfold createBook
      split
      · rfl
      · split
        · rfl
        · simp [hv, Except.isOk, Except.toBool]
  · intro h
    unfold BookWriteSerializer.validate
    simp [h, Except.isOk, Except.toBool]

/-- Witness for C3 at a concrete payload with `authors = some []`. -/
theorem validate_requires_authors_checkpoint :
    BookWriteSerializer.validate emptyAuthorsAttrs =
      .error (.field "authors" "A book must have at least one author.") ∧
    (createBook [] 1 emptyAuthorsAttrs).isOk = false :=
  (validate_requires_authors emptyAuthorsAttrs [] 1).1 (by decide)

/-- C4 counterexample: the tie-break part of the claim is false. In the
store whose author table holds `rowZeta` before `rowAlpha` (both with
zero books, so equal book counts), the statistics response lists
`rowZeta` first even though the natural ordering (last name, then first
name — `byNameLE`) puts `rowAlpha` strictly first: the query's
`order_by('-book_count')` replaces the model's default name ordering
instead of refining it. -/
theorem top_authors_tie_not_name_ordered :
    (authorStatistics [rowZeta, rowAlpha] []).top_authors = [rowZeta, rowAlpha] ∧
    bookCount [] rowZeta = bookCount [] rowAlpha ∧
    ¬ byNameLE rowZeta rowAlpha := by
  refine ⟨by decide, by decide, by with_unfolding_all decide⟩

/-- C4 (amended): for every store state, `top_authors` holds at most 5
authors and is ordered by descending book count; the relative order of
authors with equal counts is the store's underlying row order, not
necessarily the name ordering. -/
theorem top_authors_at_most_five_sorted (authors : List Author) (books : List Book) :
    (authorStatistics authors books).top_authors.length ≤ 5 ∧
    (authorStatistics authors books).top_authors.Pairwise
      (fun a b => bookCount books b ≤ bookCount books a) := by
  constructor
  · show ((authors_with_book_count authors books).take 5).length ≤ 5
    rw [List.length_take]
    exact min_le_left _ _
  · show ((authors_with_book_count authors books).take 5).Pairwise _
    have hs : (authors_with_book_count authors books).Pairwise (byBookCountDesc books) :=
      List.sorted_insertionSort (byBookCountDesc books) authors
    exact hs.sublist (List.take_sublist 5 _)

/-- C5: on the store of the spec's worked example — author A with 0
books, B with 2, C with 1 — the author statistics report
`min_books_by_single_author = 0`, `max_books_by_single_author = 2`,
`average_books_per_author = 1.0` and `authors_without_books.count = 1`. -/
theorem author_statistics_worked_example :
    bookCount exampleBooks exampleAuthorA = 0 ∧
    bookCount exampleBooks exampleAuthorB = 2 ∧
    bookCount exampleBooks exampleAuthorC = 1 ∧
    (authorStatistics [exampleAuthorA, exampleAuthorB, exampleAuthorC]
        exampleBooks).aggregated_statistics.min_books_by_single_author = 0 ∧
    (authorStatistics [exampleAuthorA, exampleAuthorB, exampleAuthorC]
        exampleBooks).aggregated_statistics.max_books_by_single_author = 2 ∧
    (authorStatistics [exampleAuthorA, exampleAuthorB, exampleAuthorC]
        exampleBooks).aggregated_statistics.average_books_per_author = 1 ∧
    (authorStatistics [exampleAuthorA, exampleAuthorB, exampleAuthorC]
        exampleBooks).authors_without_books_count = 1 := by
  with_unfolding_all decide

/-- C6: in every author statistics response the reported average is the
exact mean book count rounded to 2 decimal places (`pyRound2`), and with
no authors at all the average, max and min are the number 0 — the
response fields are plain numbers, never null. -/
theorem average_books_rounded_and_empty_defaults (authors : List Author) (books : List Book) :
    ((authorStatistics authors books).aggregated_statistics.average_books_per_author
        = pyRound2 (averageBookCountSpec authors books)) ∧
    (authors = [] →
      (authorStatistics authors books).aggregated_statistics.average_books_per_author = 0 ∧
      (authorStatistics authors books).aggregated_statistics.max_books_by_single_author = 0 ∧
      (authorStatistics authors books).aggregated_statistics.min_books_by_single_author = 0) := by
  constructor
  · show pyRound2 (pyOrZeroQ (listAvg (authors.map (bookCount books)))) = _
    cases authors with
    | nil => rfl
    | cons a as =>
      unfold listAvg averageBookCountSpec
      simp [pyOrZeroQ_some, List.length_map]
  · intro h
    subst h
    refine ⟨?_, rfl, rfl⟩
    show pyRound2 (pyOrZeroQ (listAvg ([].map (bookCount books)))) = 0
    show pyRound2 (pyOrZeroQ none) = 0
    show pyRound2 0 = 0
    exact pyRound2_zero

/-- Witness for C6 at the empty store. -/
theorem average_books_rounded_checkpoint :
    (authorStatistics [] []).aggregated_statistics.average_books_per_author = 0 ∧
    (authorStatistics [] []).aggregated_statistics.max_books_by_single_author = 0 ∧
    (authorStatistics [] []).aggregated_statistics.min_books_by_single_author = 0 :=
  (average_books_rounded_and_empty_defaults [] []).2 rfl

/-- C7: for every store and current date, the recent payload's `count`
is the length of its book list; that list holds exactly the books with
`publication_date ≥ today - 1825` (as a permutation of the table's
filtered rows); it is ordered by descending publication date; and every
entry's annotation is its book's author count. -/
theorem recent_books_spec (books : List Book) (today : Int) :
    (recent books today).count = (recent books today).books.length ∧
    ((recent books today).books.map Prod.fst).Perm
      (books.filter (fun b => today - 1825 ≤ b.publication_date)) ∧
    (recent books today).books.Pairwise
      (fun p q => q.1.publication_date ≤ p.1.publication_date) ∧
    (recent books today).books.map Prod.snd =
      ((recent books today).books.map Prod.fst).map (fun b => b.authors.length) := by
  refine ⟨?_, ?_, ?_, ?_⟩
  · show (List.insertionSort byDateDesc _).length = _
    simp [recent]
  · show ((List.insertionSort byDateDesc
        (books.filter (fun b => today - 5 * 365 ≤ b.publication_date))).map
          (fun b => (b, authorCount b))).map Prod.fst |>.Perm _
    rw [List.map_map]
    have : (Prod.fst ∘ fun b => (b, authorCount b)) = id := rfl
    rw [this, List.map_id]
    exact List.perm_insertionSort byDateDesc _
  · show ((List.insertionSort byDateDesc _).map (fun b => (b, authorCount b))).Pairwise _
    rw [List.pairwise_map]
    exact List.sorted_insertionSort byDateDesc _
  · simp [recent, List.map_map]
    intro a _ _
    rfl

/-- C8: the statistics handlers await all their sub-queries with a bare
`asyncio.gather`, so a statistics request succeeds exactly when every
one of its sub-queries succeeds — one failed sub-query makes the whole
request an error and no payload (so in particular no partial payload) is
produced — and on success the payload is assembled from all the resolved
sub-query results. The cooperative scheduling itself is timing and is
not modelled; this is its observable fail-fast/join behavior. -/
theorem statistics_gather_all_or_nothing
    (q1 : Except String AuthorAggRaw) (q2 q3 : Except String (List Author))
    (q4 : Except String Nat)
    (r1 : Except String BookAvgRaw) (r2 : Except String BookAggRaw)
    (r3 : Except String (List (String × Nat))) (r4 : Except String (List Book))
    (r5 : Except String Nat) :
    ((authorStatisticsEndpoint q1 q2 q3 q4).isOk =
      (q1.isOk && q2.isOk && q3.isOk && q4.isOk)) ∧
    ((bookStatisticsEndpoint r1 r2 r3 r4 r5).isOk =
      (r1.isOk && r2.isOk && r3.isOk && r4.isOk && r5.isOk)) ∧
    (∀ a t w c, authorStatisticsEndpoint (.ok a) (.ok t) (.ok w) (.ok c) =
      .ok (assembleAuthorStats a t w c)) ∧
    (∀ bs ag ls cl cc, bookStatisticsEndpoint (.ok bs) (.ok ag) (.ok ls) (.ok cl) (.ok cc) =
      .ok (assembleBookStats bs ag ls cl cc)) := by
  refine ⟨?_, ?_, fun a t w c => rfl, fun bs ag ls cl cc => rfl⟩
  · cases q1 <;> cases q2 <;> cases q3 <;> cases q4 <;> rfl
  · cases r1 <;> cases r2 <;> cases r3 <;> cases r4 <;> cases r5 <;> rfl

/-- C9 counterexample: the claim's own example input — the 13-digit ISBN
written with hyphens `"978-0-13-468599-1"`, 17 characters — is accepted
by the `validate_isbn` method in isolation and is wider than the `isbn`
column, but it is never handed to persistence: the `max_length=13` field
validation DRF derives from the model runs before `validate_isbn` and
rejects it with a field-keyed error. -/
theorem isbn_overflow_never_persisted :
    BookWriteSerializer.validate_isbn "978-0-13-468599-1" = .ok "978-0-13-468599-1" ∧
    Book.isbn_max_length < ("978-0-13-468599-1" : String).length ∧
    createBook [] 1 hyphenIsbnAttrs =
      .error (.field "isbn" "Ensure this field has no more than 13 characters.") := by
  refine ⟨by decide, by decide, by decide⟩

/-- C9 (amended): `validate_isbn` itself accepts raw ISBNs longer than
13 characters and returns them raw, but the model-derived `max_length=13`
field validation runs first on the write path, so every value the create
path hands to persistence fits the `Book.isbn` column: a successful
create persists exactly the raw submitted `isbn`, whose length is at
most `Book.isbn_max_length`. -/
theorem persisted_isbn_fits_column (books : List Book) (nid : Nat) (attrs : BookAttrs) :
    (createBook books nid attrs).isOk = true →
    attrs.isbn.length ≤ Book.isbn_max_length ∧
    (createBook books nid attrs).map (fun bs => bs.map (fun b => b.isbn)) =
      .ok (books.map (fun b => b.isbn) ++ [attrs.isbn]) := by
  intro h
  unfold createBook at h ⊢
  split at h
  · simp [Except.isOk, Except.toBool] at h
  · next fv heq1 =>
    split at h
    · simp [Except.isOk, Except.toBool] at h
    · next isbnVal heq2 =>
      split at h
      · simp [Except.isOk, Except.toBool] at h
      · next v heq3 =>
        obtain ⟨hfe, hflen⟩ := run_isbn_field_validators_ok heq1
        subst hfe
        have hie := validate_isbn_ok_eq heq2
        subst hie
        have hve := validate_ok_eq heq3
        subst hve
        refine ⟨hflen, ?_⟩
        simp [heq1, heq2, heq3, Except.map, List.map_append]

/-- Witness for the amended C9 at a concrete successful create: the
13-character hyphenated ISBN passes the length check and is persisted
raw. -/
theorem persisted_isbn_fits_column_checkpoint :
    hyphen13Attrs.isbn.length ≤ Book.isbn_max_length ∧
    (createBook [] 1 hyphen13Attrs).map (fun bs => bs.map (fun b => b.isbn)) =
      .ok (([] : List Book).map (fun b => b.isbn) ++ [hyphen13Attrs.isbn]) :=
  persisted_isbn_fits_column [] 1 hyphen13Attrs (by decide)

/-- C10: on an empty store the book statistics report
`latest_publication` and `earliest_publication` as null (`none` — they
get no `or 0` defaulting), while `total_books`,
`average_authors_per_book`, `average_pages`, `max_pages` and `min_pages`
are all the number 0. -/
theorem book_statistics_empty_store :
    (bookStatistics []).aggregated_statistics =
      { total_books := 0, average_authors_per_book := 0, average_pages := 0,
        max_pages := 0, min_pages := 0, latest_publication := none,
        earliest_publication := none } := by
  with_unfolding_all decide
